import Mathlib

/-!
Shallow embedding of `src/lambda_user_form_handler.py` (the submission-intake
Lambda handler) and verification of the frozen claims about it.

Modelling conventions:
* Python/JSON values are the inductive `Val` (null, bool, int, string, array,
  object).  JSON numbers are modelled as integers; floating point is not
  exercised by any claim.
* Library functions that the handler calls but that are not part of the
  repository are explicit parameters: `json.loads` is `LambdaLibs.jsonLoads`
  (returning `none` on `json.JSONDecodeError`), and the combination
  `base64.b64decode(...).decode("utf-8")` is `LambdaLibs.b64decode`
  (its `Except` error message models the raised `ValueError` subclasses,
  `binascii.Error` / `UnicodeDecodeError`).
  `urllib.parse.parse_qs` is translated concretely below, because claims
  evaluate it on concrete inputs.  Percent-decoding is modelled per character
  (multi-byte UTF-8 reassembly is not modelled; every claim uses ASCII).
* The DynamoDB table is external: the handler records the `put_item` calls it
  issues (`PutCall`, carrying the `ConditionExpression` attribute), and the
  ambient store outcome is the parameter `store`.  DynamoDB's semantics of a
  conditional put is `dynamoConditionalPut`.
* `uuid.uuid4()` and `datetime.now(timezone.utc).isoformat()` are the string
  parameters `uuid4` and `nowIso` of `lambda_handler`.
* Exceptions are `Except` values; `ValueError` messages raised inside
  `_parse_body` surface as the `.error` payload, matching the
  `except ValueError` clause of `lambda_handler` that turns them into a 400.
-/

/-- Python/JSON values as they appear in parsed request payloads and in
DynamoDB items. -/
inductive Val where
  | vNull : Val
  | vBool : Bool → Val
  | vNum : Int → Val
  | vStr : String → Val
  | vArr : List Val → Val
  | vObj : List (String × Val) → Val

mutual

/-- Structural equality test on values (Python `==` on the JSON-like values
the handler manipulates). -/
def Val.beq : Val → Val → Bool
  | .vNull, .vNull => true
  | .vBool a, .vBool b => a == b
  | .vNum a, .vNum b => a == b
  | .vStr a, .vStr b => a == b
  | .vArr a, .vArr b => valListBeq a b
  | .vObj a, .vObj b => fieldListBeq a b
  | _, _ => false

/-- Elementwise equality of value lists. -/
def valListBeq : List Val → List Val → Bool
  | [], [] => true
  | a :: as0, b :: bs0 => Val.beq a b && valListBeq as0 bs0
  | _, _ => false

/-- Elementwise equality of field lists. -/
def fieldListBeq : List (String × Val) → List (String × Val) → Bool
  | [], [] => true
  | a :: as0, b :: bs0 => (a.1 == b.1) && Val.beq a.2 b.2 && fieldListBeq as0 bs0
  | _, _ => false

end

instance : BEq Val := ⟨Val.beq⟩

/-- Python truthiness of a value (`bool(v)`): `None`, `False`, `0`, `""`,
`[]` and `\x7b\x7d` are falsy. -/
def Val.truthy : Val → Bool
  | .vNull => false
  | .vBool b => b
  | .vNum n => !(n == 0)
  | .vStr s => !(s == "")
  | .vArr xs => !xs.isEmpty
  | .vObj fs => !fs.isEmpty

mutual

/-- Python `repr(v)` (string escaping inside reprs is not modelled; no claim
evaluates the repr of a container). -/
def Val.pyRepr : Val → String
  | .vNull => "None"
  | .vBool true => "True"
  | .vBool false => "False"
  | .vNum n => toString n
  | .vStr s => "\x27" ++ s ++ "\x27"
  | .vArr xs => "[" ++ pyReprList xs ++ "]"
  | .vObj fs => "\x7b" ++ pyReprFields fs ++ "\x7d"

/-- Comma-separated reprs of list elements. -/
def pyReprList : List Val → String
  | [] => ""
  | [v] => Val.pyRepr v
  | v :: rest => Val.pyRepr v ++ ", " ++ pyReprList rest

/-- Comma-separated reprs of dict entries. -/
def pyReprFields : List (String × Val) → String
  | [] => ""
  | [kv] => "\x27" ++ kv.1 ++ "\x27: " ++ Val.pyRepr kv.2
  | kv :: rest => "\x27" ++ kv.1 ++ "\x27: " ++ Val.pyRepr kv.2 ++ ", " ++ pyReprFields rest

end

/-- Python `str(v)`: the identity on strings, `repr` otherwise. -/
def Val.pyStr : Val → String
  | .vStr s => s
  | v => Val.pyRepr v

/-- `str(x)` for an optional value, as applied to `payload.get(k)`:
`str(None) = "None"`. -/
def pyStrOpt : Option Val → String
  | some v => v.pyStr
  | none => "None"

/-- Association-list lookup, modelling `dict.get(k)` (Python dicts built by
the handler have unique keys). -/
def alookup (xs : List (String × Val)) (k : String) : Option Val :=
  (xs.find? (fun kv => kv.1 == k)).map (fun kv => kv.2)

/-- `payload.get(k)` for a parsed payload. -/
def pget (payload : List (String × Val)) (k : String) : Option Val :=
  alookup payload k

/-- Truthiness of `payload.get(k)` (absent key gives `None`, which is falsy). -/
def truthyAt (payload : List (String × Val)) (k : String) : Bool :=
  match pget payload k with
  | some v => v.truthy
  | none => false

/-- Truthiness of an optional string, as in `if not table_name` after
`os.getenv` (unset gives `None`; both `None` and `""` are falsy). -/
def optStrTruthy : Option String → Bool
  | some s => !(s == "")
  | none => false

/-- Python `a or b` on optional strings: keeps `a` when it is truthy. -/
def pyOrStrOpt (a b : Option String) : Option String :=
  match a with
  | some s => if s == "" then b else some s
  | none => b

/-- Does `needle` occur as a contiguous run inside `hay`? -/
def listHasSub (hay needle : List Char) : Bool :=
  match hay with
  | [] => needle.isEmpty
  | _ :: rest => needle.isPrefixOf hay || listHasSub rest needle

/-- Python substring test `needle in hay`. -/
def strContains (hay needle : String) : Bool :=
  listHasSub hay.data needle.data

/-- Python `s.split(sep)` for a one-character separator, on character lists. -/
def splitOnChar (sep : Char) : List Char → List (List Char)
  | [] => [[]]
  | c :: rest =>
    let r := splitOnChar sep rest
    if c == sep then [] :: r
    else
      match r with
      | h :: t => (c :: h) :: t
      | [] => [[c]]

/-- Python `s.split(sep, 1)` for a one-character separator: `none` when the
separator does not occur, otherwise the parts before and after its first
occurrence. -/
def splitFirstAt (sep : Char) (cs : List Char) : Option (List Char × List Char) :=
  if cs.contains sep then
    some (cs.takeWhile (fun c => !(c == sep)),
          (cs.dropWhile (fun c => !(c == sep))).drop 1)
  else none

/-- The whitespace class of the regex `\s` (ASCII part; Unicode whitespace is
not exercised by any claim). -/
def isPyWs (c : Char) : Bool :=
  c == ' ' || c == '\t' || c == '\n' || c == '\r' || c == '\x0b' || c == '\x0c'

/-- All characters belong to the class `[^@\s]` of the email pattern. -/
def noAtNoWs (cs : List Char) : Bool :=
  cs.all (fun c => !(c == '@') && !(isPyWs c))

/-- Whether the character list matches the regex body
`[^@\s]+@[^@\s]+\.[^@\s]+` exactly (from the first character to the last):
a non-empty `[^@\s]` run, `@`, then a domain that is all `[^@\s]` and has a
`.` at some interior position. -/
def emailCore (cs : List Char) : Bool :=
  let localPart := cs.takeWhile (fun c => !(c == '@'))
  match cs.dropWhile (fun c => !(c == '@')) with
  | '@' :: dom =>
    !localPart.isEmpty && noAtNoWs localPart && !dom.isEmpty && noAtNoWs dom
      && ((dom.drop 1).dropLast.contains '.')
  | _ => false

/-- Modelled from the spec: the email pattern "anchored at both ends" — the
regex body must match the whole string, with no allowance at the end. -/
def emailAnchoredSpec (email : String) : Bool :=
  emailCore email.data

/-- `_is_valid_email` via `re.match(r"^[^@\s]+@[^@\s]+\.[^@\s]+$", email)`:
`re.match` anchors at the start, and `$` matches at the end of the string or
just before a single trailing newline. -/
def _is_valid_email (email : String) : Bool :=
  emailCore email.data
    || (match email.data.getLast? with
        | some c => c == '\n' && emailCore email.data.dropLast
        | none => false)

/-- Value of a hexadecimal digit. -/
def hexVal (c : Char) : Option Nat :=
  if '0' ≤ c ∧ c ≤ '9' then some (c.toNat - '0'.toNat)
  else if 'a' ≤ c ∧ c ≤ 'f' then some (c.toNat - 'a'.toNat + 10)
  else if 'A' ≤ c ∧ c ≤ 'F' then some (c.toNat - 'A'.toNat + 10)
  else none

/-- `urllib.parse.unquote` on characters: `%XX` with two hex digits decodes
to the character of that code, malformed escapes are kept verbatim. -/
def unquoteChars : List Char → List Char
  | '%' :: h1 :: h2 :: rest =>
    (match hexVal h1, hexVal h2 with
     | some a, some b => Char.ofNat (16 * a + b) :: unquoteChars rest
     | _, _ => '%' :: unquoteChars (h1 :: h2 :: rest))
  | c :: rest => c :: unquoteChars rest
  | [] => []

/-- `urllib.parse.unquote(s.replace('+', ' '))` on character lists, as
`parse_qsl` applies it to names and values. -/
def unquotePlusChars (cs : List Char) : List Char :=
  unquoteChars (cs.map (fun c => if c == '+' then ' ' else c))

/-- `urllib.parse.parse_qsl(qs)` with default arguments: split on `&`, skip
empty chunks, skip chunks without `=` (`strict_parsing=False`), skip pairs
whose (still encoded) value is empty (`keep_blank_values=False`),
percent-decode names and values. -/
def parse_qsl (qs : String) : List (String × String) :=
  (splitOnChar '&' qs.data).filterMap (fun nameValue =>
    if nameValue.isEmpty then none
    else
      match splitFirstAt '=' nameValue with
      | none => none
      | some (name, value) =>
        if value.isEmpty then none
        else some (String.mk (unquotePlusChars name), String.mk (unquotePlusChars value)))

/-- `urllib.parse.parse_qs(qs)`: group the pairs of `parse_qsl` into a dict
from name to list of values, insertion-ordered by first occurrence. -/
def parse_qs (qs : String) : List (String × List String) :=
  (parse_qsl qs).foldl
    (fun acc kv =>
      if acc.any (fun g => g.1 == kv.1) then
        acc.map (fun g => if g.1 == kv.1 then (g.1, g.2 ++ [kv.2]) else g)
      else acc ++ [(kv.1, [kv.2])])
    []

/-- The dict comprehension of `_parse_body`'s form branch:
`\x7bk: v[0] if isinstance(v, list) and v else v for k, v in parse_qs(raw_body).items()\x7d`.
`parse_qs` only produces non-empty lists, so the first value is taken; the
empty-list case mirrors the comprehension's (unreachable) `else v` branch. -/
def formPayload (rawBody : String) : List (String × Val) :=
  (parse_qs rawBody).map (fun kv =>
    match kv.2 with
    | v :: _ => (kv.1, Val.vStr v)
    | [] => (kv.1, Val.vArr []))

/-- An inbound Lambda proxy event, restricted to the fields the handler
reads.  `headers = none` models both an absent and a `null` headers member
(`event.get("headers", \x7b\x7d) or \x7b\x7d`); `rcHttpMethod` models
`event.get("requestContext", \x7b\x7d).get("http", \x7b\x7d).get("method")`. -/
structure Event where
  httpMethod : Option String
  rcHttpMethod : Option String
  headers : Option (List (String × String))
  body : Option String
  isBase64Encoded : Bool

/-- `(event.get("headers", \x7b\x7d) or \x7b\x7d).get(k)`. -/
def headerGet (e : Event) (k : String) : Option String :=
  ((e.headers.getD []).find? (fun kv => kv.1 == k)).map (fun kv => kv.2)

/-- The `content_type` expression of `_parse_body`:
`headers.get("content-type") or headers.get("Content-Type") or "application/json"`. -/
def contentTypeOf (e : Event) : String :=
  match pyOrStrOpt (headerGet e "content-type")
      (pyOrStrOpt (headerGet e "Content-Type") (some "application/json")) with
  | some s => s
  | none => "application/json"

/-- The ambient Python library functions `_parse_body` calls. -/
structure LambdaLibs where
  jsonLoads : String → Option Val
  b64decode : String → Except String String

/-- `_parse_body(event)`: pick the content type, take `event.get("body") or ""`,
base64-decode when flagged, then dispatch on the content type; errors model
the raised `ValueError`s (message payload). -/
def _parse_body (L : LambdaLibs) (e : Event) :
    Except String (List (String × Val) × String) :=
  let contentType := contentTypeOf e
  let rawBody0 := e.body.getD ""
  match (if e.isBase64Encoded then L.b64decode rawBody0 else .ok rawBody0) with
  | .error msg => .error msg
  | .ok rawBody =>
    if strContains contentType "application/x-www-form-urlencoded" then
      .ok (formPayload rawBody, "form")
    else if rawBody == "" then
      .ok ([], "json")
    else
      match L.jsonLoads rawBody with
      | none => .error "Invalid JSON in request body"
      | some (.vObj fields) => .ok (fields, "json")
      | some _ => .error "Request JSON must be an object"

/-- `_validate_payload(payload)`: the `for field in ["name", "email"]` loop
unrolled, then the email-shape check on `str(payload.get("email"))`. -/
def _validate_payload (payload : List (String × Val)) : Bool × String :=
  if !(truthyAt payload "name") then (false, "Missing required field: name")
  else if !(truthyAt payload "email") then (false, "Missing required field: email")
  else if !(_is_valid_email (pyStrOpt (pget payload "email"))) then
    (false, "Invalid email format")
  else (true, "")

/-- A `table.put_item` call as `_put_item` issues it: the table name, the
item, and the attribute named by `ConditionExpression="attribute_not_exists(...)"`. -/
structure PutCall where
  tableName : String
  item : List (String × Val)
  conditionAttr : String

/-- `_put_item(table_name, item)`: one conditional put with
`ConditionExpression="attribute_not_exists(userId)"`. -/
def _put_item (tableName : String) (item : List (String × Val)) : PutCall :=
  { tableName := tableName, item := item, conditionAttr := "userId" }

/-- DynamoDB semantics of the conditional put, for a table whose primary key
attribute is `keyAttr` (a `List` of items stands for the table's contents):
the put addresses the existing item with the same key value; the condition
`attribute_not_exists(c.conditionAttr)` fails (\x60ClientError\x60, the
`.error` case) when that item exists and carries the attribute; otherwise the
item is written. -/
def dynamoConditionalPut (keyAttr : String) (table : List (List (String × Val)))
    (c : PutCall) : Except Unit (List (List (String × Val))) :=
  match table.find? (fun ex => alookup ex keyAttr == alookup c.item keyAttr) with
  | some ex =>
    if (alookup ex c.conditionAttr).isSome then .error ()
    else .ok (table.map (fun ex2 =>
      if alookup ex2 keyAttr == alookup c.item keyAttr then c.item else ex2))
  | none => .ok (table ++ [c.item])

/-- `str(payload.get(k)) if payload.get(k) is not None else None` — the value
stored for the optional fields `message` and `phone`. -/
def optFieldStr : Option Val → Option Val
  | none => none
  | some .vNull => none
  | some v => some (.vStr v.pyStr)

/-- The `item` dict of `lambda_handler`, after the
`\x7bk: v for k, v in item.items() if v is not None\x7d` cleanup that drops
`None`-valued entries. -/
def buildItem (payload : List (String × Val)) (sourceType uuid4 nowIso : String) :
    List (String × Val) :=
  (([("userId", some (Val.vStr uuid4)),
     ("name", some (Val.vStr (pyStrOpt (pget payload "name")))),
     ("email", some (Val.vStr (pyStrOpt (pget payload "email")))),
     ("message", optFieldStr (pget payload "message")),
     ("phone", optFieldStr (pget payload "phone")),
     ("sourceType", some (Val.vStr sourceType)),
     ("createdAt", some (Val.vStr nowIso)),
     ("updatedAt", some (Val.vStr nowIso))]
    : List (String × Option Val)).filterMap
      (fun kv => kv.2.map (fun v => (kv.1, v))))

/-- The environment configuration read via `os.getenv`: an unset variable is
`none`, a set-but-empty one is `some ""`. -/
structure Env where
  allowedOrigins : Option String
  tableName : Option String

/-- `_get_cors_headers()`: `os.getenv("ALLOWED_ORIGINS", "*")` falls back to
`"*"` only when the variable is unset. -/
def _get_cors_headers (env : Env) : List (String × String) :=
  [("Access-Control-Allow-Origin", env.allowedOrigins.getD "*"),
   ("Access-Control-Allow-Methods", "OPTIONS,POST"),
   ("Access-Control-Allow-Headers", "Content-Type,Authorization"),
   ("Access-Control-Max-Age", "86400")]

/-- Minimal `json.dumps` string escaping (backslash, quote, newline; other
control characters and non-ASCII escaping are not exercised by any claim). -/
def jsonEscape (s : String) : String :=
  String.mk (s.data.foldr
    (fun c acc =>
      if c == '\\' then '\\' :: '\\' :: acc
      else if c == '"' then '\\' :: '"' :: acc
      else if c == '\n' then '\\' :: 'n' :: acc
      else c :: acc)
    [])

mutual

/-- `json.dumps(v)` with the default separators `", "` and `": "`. -/
def json_dumps : Val → String
  | .vNull => "null"
  | .vBool true => "true"
  | .vBool false => "false"
  | .vNum n => toString n
  | .vStr s => "\"" ++ jsonEscape s ++ "\""
  | .vArr xs => "[" ++ jsonDumpsList xs ++ "]"
  | .vObj fs => "\x7b" ++ jsonDumpsFields fs ++ "\x7d"

/-- Comma-separated dumps of array elements. -/
def jsonDumpsList : List Val → String
  | [] => ""
  | [v] => json_dumps v
  | v :: rest => json_dumps v ++ ", " ++ jsonDumpsList rest

/-- Comma-separated dumps of object entries. -/
def jsonDumpsFields : List (String × Val) → String
  | [] => ""
  | [kv] => "\"" ++ jsonEscape kv.1 ++ "\": " ++ json_dumps kv.2
  | kv :: rest =>
    "\"" ++ jsonEscape kv.1 ++ "\": " ++ json_dumps kv.2 ++ ", " ++ jsonDumpsFields rest

end

/-- The HTTP-shaped response dict returned by `_response`. -/
structure Response where
  statusCode : Nat
  headers : List (String × String)
  body : String
deriving DecidableEq

/-- `_response(status_code, body)`: attach the CORS headers and
JSON-encode the body dict. -/
def _response (env : Env) (statusCode : Nat) (body : List (String × Val)) : Response :=
  { statusCode := statusCode,
    headers := _get_cors_headers env,
    body := json_dumps (.vObj body) }

/-- The preflight test of `lambda_handler`:
`(event.get("httpMethod") or event.get("requestContext", \x7b\x7d).get("http", \x7b\x7d).get("method")) == "OPTIONS"`. -/
def isOptionsReq (e : Event) : Bool :=
  pyOrStrOpt e.httpMethod e.rcHttpMethod == some "OPTIONS"

/-- `lambda_handler(event, context)`.  `store` is the external DynamoDB
outcome of the one put the handler may issue (`.error` models `ClientError`,
whose text feeds the 500 response's `detail`); the returned list collects the
put calls the store observed, in order.  `uuid4` and `nowIso` are the values
of `str(uuid.uuid4())` and `datetime.now(timezone.utc).isoformat()`. -/
def lambda_handler (L : LambdaLibs) (env : Env) (store : PutCall → Except String Unit)
    (uuid4 nowIso : String) (e : Event) : Response × List PutCall :=
  if isOptionsReq e then
    (_response env 204 [], [])
  else if optStrTruthy env.tableName then
    match _parse_body L e with
    | .error msg => (_response env 400 [("message", .vStr msg)], [])
    | .ok (payload, sourceType) =>
      match _validate_payload payload with
      | (false, errorMsg) => (_response env 400 [("message", .vStr errorMsg)], [])
      | (true, _) =>
        let item := buildItem payload sourceType uuid4 nowIso
        let call := _put_item (env.tableName.getD "") item
        match store call with
        | .ok _ =>
          (_response env 201 [("message", .vStr "Submitted"), ("userId", .vStr uuid4)],
           [call])
        | .error detail =>
          (_response env 500 [("message", .vStr "DynamoDB error"), ("detail", .vStr detail)],
           [call])
  else
    (_response env 500 [("message", .vStr "Server misconfiguration: TABLE_NAME is not set")], [])

/-! Concrete fixtures used to evaluate the embedding on the inputs the
claims and the spec's examples mention. -/

/-- A library instantiation whose `json.loads` rejects every body (as Python's
does on all non-JSON bodies used with it below) and whose base64 decode is the
identity. -/
def L0 : LambdaLibs := ⟨fun _ => none, fun s => .ok s⟩

/-- The JSON body `\x7b"name": "Jo", "email": "jo@example.com"\x7d` of the
spec's round-trip example. -/
def jsonBodyJo : String := "\x7b\"name\": \"Jo\", \"email\": \"jo@example.com\"\x7d"

/-- A library instantiation that parses `jsonBodyJo` exactly as `json.loads`
does. -/
def Ljo : LambdaLibs :=
  ⟨fun s =>
    if s == jsonBodyJo then
      some (.vObj [("name", .vStr "Jo"), ("email", .vStr "jo@example.com")])
    else none,
   fun s => .ok s⟩

/-- A library instantiation that parses `[1, 2]` as `json.loads` does (a JSON
array, not an object). -/
def Larr : LambdaLibs :=
  ⟨fun s => if s == "[1, 2]" then some (.vArr [.vNum 1, .vNum 2]) else none,
   fun s => .ok s⟩

/-- A store in which every conditional put succeeds. -/
def storeOk : PutCall → Except String Unit := fun _ => .ok ()

/-- A configuration with `TABLE_NAME` set and `ALLOWED_ORIGINS` unset. -/
def envT : Env := { allowedOrigins := none, tableName := some "Submissions" }

/-- A form-encoded submission for Jo. -/
def eFormJo : Event :=
  { httpMethod := some "POST", rcHttpMethod := none,
    headers := some [("content-type", "application/x-www-form-urlencoded")],
    body := some "name=Jo&email=jo%40example.com", isBase64Encoded := false }

/-- The same submission as a JSON body. -/
def eJsonJo : Event :=
  { httpMethod := some "POST", rcHttpMethod := none,
    headers := some [("content-type", "application/json")],
    body := some jsonBodyJo, isBase64Encoded := false }

/-- The form submission with the content type given under an upper-case
header key. -/
def eUpperCT : Event :=
  { httpMethod := some "POST", rcHttpMethod := none,
    headers := some [("CONTENT-TYPE", "application/x-www-form-urlencoded")],
    body := some "name=Jo&email=jo%40example.com", isBase64Encoded := false }

/-- A POST with no headers and no body. -/
def eEmptyBody : Event :=
  { httpMethod := some "POST", rcHttpMethod := none, headers := none,
    body := none, isBase64Encoded := false }

/-- A POST carrying the spec's malformed JSON example `\x7bnot json`. -/
def eBadJson : Event :=
  { httpMethod := some "POST", rcHttpMethod := none, headers := none,
    body := some "\x7bnot json", isBase64Encoded := false }

/-- A POST whose JSON body is the array `[1, 2]`. -/
def eArrJson : Event :=
  { httpMethod := some "POST", rcHttpMethod := none, headers := none,
    body := some "[1, 2]", isBase64Encoded := false }

/-- An OPTIONS preflight request (with a body, which must be ignored). -/
def eOptions : Event :=
  { httpMethod := some "OPTIONS", rcHttpMethod := none, headers := none,
    body := some "ignored", isBase64Encoded := false }

/-- A form-encoded request whose body has no `key=value` pair at all. -/
def eFormGarbage : Event :=
  { httpMethod := some "POST", rcHttpMethod := none,
    headers := some [("content-type", "application/x-www-form-urlencoded")],
    body := some "????", isBase64Encoded := false }

/-- The payload both `eFormJo` and `eJsonJo` parse to. -/
def pJo : List (String × Val) :=
  [("name", Val.vStr "Jo"), ("email", Val.vStr "jo@example.com")]

/-! General lemmas about the embedding, shared by the claim theorems. -/

/-- A payload with truthy `name`, truthy `email` and a well-shaped email
passes `_validate_payload`. -/
theorem validate_ok (p : List (String × Val))
    (hn : truthyAt p "name" = true) (he : truthyAt p "email" = true)
    (hf : _is_valid_email (pyStrOpt (pget p "email")) = true) :
    _validate_payload p = (true, "") := by
  simp [_validate_payload, hn, he, hf]

/-- Shape of the handler's run on the fully successful path: 201 response and
exactly the one conditional put of the built item. -/
theorem handler_success (L : LambdaLibs) (env : Env) (store : PutCall → Except String Unit)
    (u n : String) (e : Event) (p : List (String × Val)) (st tn : String)
    (hm : isOptionsReq e = false) (ht : env.tableName = some tn) (htn : tn ≠ "")
    (hp : _parse_body L e = .ok (p, st)) (hv : _validate_payload p = (true, ""))
    (hs : store (_put_item tn (buildItem p st u n)) = .ok ()) :
    lambda_handler L env store u n e =
      (_response env 201 [("message", .vStr "Submitted"), ("userId", .vStr u)],
       [_put_item tn (buildItem p st u n)]) := by
  simp [lambda_handler, hm, ht, htn, optStrTruthy, hp, hv, hs]

/-- A parse error becomes a 400 with the error message, and no put happens. -/
theorem handler_parse_error (L : LambdaLibs) (env : Env) (store : PutCall → Except String Unit)
    (u n : String) (e : Event) (msg : String)
    (hm : isOptionsReq e = false) (ht : optStrTruthy env.tableName = true)
    (hp : _parse_body L e = .error msg) :
    lambda_handler L env store u n e =
      (_response env 400 [("message", .vStr msg)], []) := by
  simp [lambda_handler, hm, ht, hp]

/-- A validation failure becomes a 400 with the reason, and no put happens. -/
theorem handler_invalid (L : LambdaLibs) (env : Env) (store : PutCall → Except String Unit)
    (u n : String) (e : Event) (p : List (String × Val)) (st msg : String)
    (hm : isOptionsReq e = false) (ht : optStrTruthy env.tableName = true)
    (hp : _parse_body L e = .ok (p, st)) (hv : _validate_payload p = (false, msg)) :
    lambda_handler L env store u n e =
      (_response env 400 [("message", .vStr msg)], []) := by
  simp [lambda_handler, hm, ht, hp, hv]

/-- The built item always carries the generated id under the key `userId`. -/
theorem buildItem_userId (p : List (String × Val)) (st u n : String) :
    alookup (buildItem p st u n) "userId" = some (.vStr u) := by
  simp [buildItem, alookup]

/-- The built item's `name` is the stringified payload `name`. -/
theorem buildItem_name (p : List (String × Val)) (st u n : String) :
    alookup (buildItem p st u n) "name" = some (.vStr (pyStrOpt (pget p "name"))) := by
  simp [buildItem, alookup]

/-- The built item's `email` is the stringified payload `email`. -/
theorem buildItem_email (p : List (String × Val)) (st u n : String) :
    alookup (buildItem p st u n) "email" = some (.vStr (pyStrOpt (pget p "email"))) := by
  simp [buildItem, alookup]

/-- The built item's `createdAt` is the captured time. -/
theorem buildItem_createdAt (p : List (String × Val)) (st u n : String) :
    alookup (buildItem p st u n) "createdAt" = some (.vStr n) := by
  cases hm : optFieldStr (pget p "message") <;> cases hp : optFieldStr (pget p "phone") <;>
    simp [buildItem, alookup, hm, hp]

/-- The built item's `updatedAt` is the same captured time. -/
theorem buildItem_updatedAt (p : List (String × Val)) (st u n : String) :
    alookup (buildItem p st u n) "updatedAt" = some (.vStr n) := by
  cases hm : optFieldStr (pget p "message") <;> cases hp : optFieldStr (pget p "phone") <;>
    simp [buildItem, alookup, hm, hp]

/-- The built item records the encoding tag under `sourceType`. -/
theorem buildItem_sourceType (p : List (String × Val)) (st u n : String) :
    alookup (buildItem p st u n) "sourceType" = some (.vStr st) := by
  cases hm : optFieldStr (pget p "message") <;> cases hp : optFieldStr (pget p "phone") <;>
    simp [buildItem, alookup, hm, hp]

/-- The built item never contains a key named `id`. -/
theorem buildItem_no_id (p : List (String × Val)) (st u n : String) :
    alookup (buildItem p st u n) "id" = none := by
  cases hm : optFieldStr (pget p "message") <;> cases hp : optFieldStr (pget p "phone") <;>
    simp [buildItem, alookup, hm, hp]

/-- An absent or `None` optional source value stores nothing. -/
theorem optFieldStr_none_of_absent (o : Option Val)
    (h : o = none ∨ o = some .vNull) : optFieldStr o = none := by
  rcases h with h | h <;> simp [h, optFieldStr]

/-- The built item has no `message` key when the payload's `message` is
absent or `None`. -/
theorem buildItem_message_none (p : List (String × Val)) (st u n : String)
    (h : pget p "message" = none ∨ pget p "message" = some .vNull) :
    alookup (buildItem p st u n) "message" = none := by
  cases hp : optFieldStr (pget p "phone") <;>
    simp [buildItem, alookup, optFieldStr_none_of_absent _ h, hp]

/-- The built item has no `phone` key when the payload's `phone` is absent or
`None`. -/
theorem buildItem_phone_none (p : List (String × Val)) (st u n : String)
    (h : pget p "phone" = none ∨ pget p "phone" = some .vNull) :
    alookup (buildItem p st u n) "phone" = none := by
  cases hm : optFieldStr (pget p "message") <;>
    simp [buildItem, alookup, optFieldStr_none_of_absent _ h, hm]

/-- Boolean equality with a `some`-wrapped string value agrees with
propositional equality. -/
theorem optVal_beq_vStr (o : Option Val) (s : String) :
    (o == some (Val.vStr s)) = true ↔ o = some (Val.vStr s) := by
  cases o with
  | none => exact ⟨fun h => (nomatch h), fun h => (nomatch h)⟩
  | some v =>
    have hred : (some v == some (Val.vStr s)) = Val.beq v (Val.vStr s) := rfl
    rw [hred]
    cases v <;> simp [Val.beq]

/-- The conditional put of an item whose `userId` is the string `s`, against
a table keyed by `userId`, fails exactly when some existing item has that
same `userId`. -/
theorem dynamoPut_error_iff (table : List (List (String × Val))) (c : PutCall) (s : String)
    (hk : alookup c.item "userId" = some (.vStr s)) (hc : c.conditionAttr = "userId") :
    dynamoConditionalPut "userId" table c = .error () ↔
      ∃ ex ∈ table, alookup ex "userId" = some (.vStr s) := by
  rcases hfind : table.find? (fun ex => alookup ex "userId" == alookup c.item "userId")
    with _ | ex
  · have hred : dynamoConditionalPut "userId" table c = .ok (table ++ [c.item]) := by
      unfold dynamoConditionalPut
      simp only [hfind]
    rw [hred]
    rw [List.find?_eq_none] at hfind
    simp only [hk] at hfind
    constructor
    · intro h; cases h
    · rintro ⟨ex, hmem, hex⟩
      exact absurd ((optVal_beq_vStr _ _).mpr hex) (by simpa using hfind ex hmem)
  · have hp := List.find?_some hfind
    have hmem := List.mem_of_find?_eq_some hfind
    rw [hk] at hp
    have hex := (optVal_beq_vStr _ _).mp hp
    have hred : dynamoConditionalPut "userId" table c = .error () := by
      unfold dynamoConditionalPut
      simp only [hfind, hc, hex, Option.isSome_some, if_true]
    rw [hred]
    exact ⟨fun _ => ⟨ex, hmem, hex⟩, fun _ => rfl⟩

/-- Reduction of `_parse_body` on the JSON branch (no base64 flag, content
type not form-encoded). -/
theorem parse_body_json (L : LambdaLibs) (e : Event)
    (hb : e.isBase64Encoded = false)
    (hct : strContains (contentTypeOf e) "application/x-www-form-urlencoded" = false) :
    _parse_body L e =
      (if e.body.getD "" = "" then .ok ([], "json")
       else
         match L.jsonLoads (e.body.getD "") with
         | none => .error "Invalid JSON in request body"
         | some (.vObj fields) => .ok (fields, "json")
         | some _ => .error "Request JSON must be an object") := by
  unfold _parse_body
  simp [hb, hct]

/-- Reduction of `_parse_body` on the form branch (no base64 flag). -/
theorem parse_body_form (L : LambdaLibs) (e : Event)
    (hb : e.isBase64Encoded = false)
    (hct : strContains (contentTypeOf e) "application/x-www-form-urlencoded" = true) :
    _parse_body L e = .ok (formPayload (e.body.getD ""), "form") := by
  unfold _parse_body
  simp [hb, hct]

/-- Claim C1: for every parsed payload in which `name` is truthy and `email`
is truthy and passes the email check, the handler returns 201 with body
`\x7b"message": "Submitted", "userId": <uuid>\x7d`, and exactly one record is
persisted, whose `createdAt` equals its `updatedAt`, both being the single
captured UTC time `nowIso`. -/
theorem C1_valid_submission_201 (L : LambdaLibs) (env : Env)
    (store : PutCall → Except String Unit) (u n : String) (e : Event)
    (p : List (String × Val)) (st tn : String)
    (hm : isOptionsReq e = false) (ht : env.tableName = some tn) (htn : tn ≠ "")
    (hp : _parse_body L e = .ok (p, st))
    (hname : truthyAt p "name" = true) (hemail : truthyAt p "email" = true)
    (hfmt : _is_valid_email (pyStrOpt (pget p "email")) = true)
    (hs : ∀ c, store c = .ok ()) :
    (lambda_handler L env store u n e).1.statusCode = 201 ∧
    (lambda_handler L env store u n e).1.body =
      json_dumps (.vObj [("message", .vStr "Submitted"), ("userId", .vStr u)]) ∧
    ∃ c, (lambda_handler L env store u n e).2 = [c] ∧
      alookup c.item "createdAt" = some (.vStr n) ∧
      alookup c.item "updatedAt" = some (.vStr n) ∧
      alookup c.item "createdAt" = alookup c.item "updatedAt" := by
  have hv := validate_ok p hname hemail hfmt
  have h := handler_success L env store u n e p st tn hm ht htn hp hv (hs _)
  rw [h]
  refine ⟨rfl, rfl, _put_item tn (buildItem p st u n), rfl, ?_, ?_, ?_⟩
  · exact buildItem_createdAt p st u n
  · exact buildItem_updatedAt p st u n
  · exact (buildItem_createdAt p st u n).trans (buildItem_updatedAt p st u n).symm

/-- Witness for C1 at the concrete form submission `eFormJo`. -/
theorem C1_valid_submission_201_witness :
    (isOptionsReq eFormJo = false ∧ envT.tableName = some "Submissions" ∧
      "Submissions" ≠ "" ∧ _parse_body L0 eFormJo = .ok (pJo, "form") ∧
      truthyAt pJo "name" = true ∧ truthyAt pJo "email" = true ∧
      _is_valid_email (pyStrOpt (pget pJo "email")) = true ∧
      (∀ c, storeOk c = .ok ())) ∧
    ((lambda_handler L0 envT storeOk "u-1" "t0" eFormJo).1.statusCode = 201 ∧
     (lambda_handler L0 envT storeOk "u-1" "t0" eFormJo).1.body =
       json_dumps (.vObj [("message", .vStr "Submitted"), ("userId", .vStr "u-1")]) ∧
     ∃ c, (lambda_handler L0 envT storeOk "u-1" "t0" eFormJo).2 = [c] ∧
       alookup c.item "createdAt" = some (.vStr "t0") ∧
       alookup c.item "updatedAt" = some (.vStr "t0") ∧
       alookup c.item "createdAt" = alookup c.item "updatedAt") :=
  ⟨⟨rfl, rfl, by decide, rfl, rfl, rfl, rfl, fun _ => rfl⟩,
   C1_valid_submission_201 L0 envT storeOk "u-1" "t0" eFormJo pJo "form" "Submissions"
     rfl rfl (by decide) rfl rfl rfl rfl (fun _ => rfl)⟩

/-- Claim C2, counterexample: on a concrete valid submission, the single
persisted record carries the generated id under the attribute `userId`, has
no attribute named `id` at all, and the conditional-write attribute is
`userId` — refuting the claim that the primary-key field is named `id`. -/
theorem C2_counterexample :
    (lambda_handler L0 envT storeOk "u-1" "t0" eFormJo).2.map
        (fun c => (alookup c.item "id", alookup c.item "userId", c.conditionAttr)) =
      [(none, some (.vStr "u-1"), "userId")] := rfl

/-- Claim C2 as amended: the persisted record's primary-key field is named
`userId` (not `id`), holds the generated UUID, and the conditional write
(`attribute_not_exists(userId)`) fails exactly when a record with the same
`userId` already exists — insert-if-absent on the `userId` key. -/
theorem C2_userId_primary_key (L : LambdaLibs) (env : Env)
    (store : PutCall → Except String Unit) (u n : String) (e : Event)
    (p : List (String × Val)) (st tn : String)
    (hm : isOptionsReq e = false) (ht : env.tableName = some tn) (htn : tn ≠ "")
    (hp : _parse_body L e = .ok (p, st)) (hv : _validate_payload p = (true, ""))
    (hs : ∀ c, store c = .ok ()) :
    ∃ c, (lambda_handler L env store u n e).2 = [c] ∧
      alookup c.item "userId" = some (.vStr u) ∧
      alookup c.item "id" = none ∧
      c.conditionAttr = "userId" ∧
      ∀ table, (dynamoConditionalPut "userId" table c = .error () ↔
        ∃ ex ∈ table, alookup ex "userId" = some (.vStr u)) := by
  have h := handler_success L env store u n e p st tn hm ht htn hp hv (hs _)
  rw [h]
  refine ⟨_put_item tn (buildItem p st u n), rfl, buildItem_userId p st u n,
    buildItem_no_id p st u n, rfl, fun table => ?_⟩
  exact dynamoPut_error_iff table _ u (buildItem_userId p st u n) rfl

/-- Witness for the amended C2 at the concrete form submission `eFormJo`. -/
theorem C2_userId_primary_key_witness :
    (isOptionsReq eFormJo = false ∧ envT.tableName = some "Submissions" ∧
      "Submissions" ≠ "" ∧ _parse_body L0 eFormJo = .ok (pJo, "form") ∧
      _validate_payload pJo = (true, "") ∧ (∀ c, storeOk c = .ok ())) ∧
    (∃ c, (lambda_handler L0 envT storeOk "u-1" "t0" eFormJo).2 = [c] ∧
      alookup c.item "userId" = some (.vStr "u-1") ∧
      alookup c.item "id" = none ∧
      c.conditionAttr = "userId" ∧
      ∀ table, (dynamoConditionalPut "userId" table c = .error () ↔
        ∃ ex ∈ table, alookup ex "userId" = some (.vStr "u-1"))) :=
  ⟨⟨rfl, rfl, by decide, rfl, rfl, fun _ => rfl⟩,
   C2_userId_primary_key L0 envT storeOk "u-1" "t0" eFormJo pJo "form" "Submissions"
     rfl rfl (by decide) rfl rfl (fun _ => rfl)⟩

/-- Claim C3, counterexample: `"jo@example.com\n"` fails the spec's pattern
anchored at both ends, yet the code's validation accepts the payload (Python's
`$` also matches just before a single trailing newline), so the claimed 400
"Invalid email format" is not produced for it. -/
theorem C3_counterexample :
    emailAnchoredSpec "jo@example.com\n" = false ∧
    _is_valid_email "jo@example.com\n" = true ∧
    _validate_payload [("name", .vStr "Jo"), ("email", .vStr "jo@example.com\n")] =
      (true, "") :=
  ⟨rfl, rfl, rfl⟩

/-- Claim C3 as amended: validation checks `name` then `email` (first failure
wins) with the stated 400 messages; the email pattern is anchored at the
start, but at the end Python's `$` also matches just before a single trailing
newline, so everything the fully anchored pattern accepts is accepted (and an
address followed by exactly one trailing newline is additionally accepted). -/
theorem C3_validation_order (p : List (String × Val)) :
    (truthyAt p "name" = false →
      _validate_payload p = (false, "Missing required field: name")) ∧
    (truthyAt p "name" = true → truthyAt p "email" = false →
      _validate_payload p = (false, "Missing required field: email")) ∧
    (truthyAt p "name" = true → truthyAt p "email" = true →
      _is_valid_email (pyStrOpt (pget p "email")) = false →
      _validate_payload p = (false, "Invalid email format")) ∧
    (∀ s, emailAnchoredSpec s = true → _is_valid_email s = true) := by
  refine ⟨?_, ?_, ?_, ?_⟩
  · intro h; simp [_validate_payload, h]
  · intro h1 h2; simp [_validate_payload, h1, h2]
  · intro h1 h2 h3; simp [_validate_payload, h1, h2, h3]
  · intro s h
    unfold emailAnchoredSpec at h
    unfold _is_valid_email
    simp [h]

/-- Witness for the amended C3, exercising all three failure branches and the
pattern inclusion at concrete payloads. -/
theorem C3_validation_order_witness :
    (truthyAt ([] : List (String × Val)) "name" = false ∧
      _validate_payload [] = (false, "Missing required field: name")) ∧
    (truthyAt [("name", Val.vStr "Jo")] "name" = true ∧
      truthyAt [("name", Val.vStr "Jo")] "email" = false ∧
      _validate_payload [("name", Val.vStr "Jo")] =
        (false, "Missing required field: email")) ∧
    (truthyAt [("name", Val.vStr "Jo"), ("email", Val.vStr "x")] "name" = true ∧
      truthyAt [("name", Val.vStr "Jo"), ("email", Val.vStr "x")] "email" = true ∧
      _is_valid_email
        (pyStrOpt (pget [("name", Val.vStr "Jo"), ("email", Val.vStr "x")] "email")) = false ∧
      _validate_payload [("name", Val.vStr "Jo"), ("email", Val.vStr "x")] =
        (false, "Invalid email format")) ∧
    (emailAnchoredSpec "a@b.c" = true ∧ _is_valid_email "a@b.c" = true) :=
  ⟨⟨rfl, (C3_validation_order []).1 rfl⟩,
   ⟨rfl, rfl, (C3_validation_order _).2.1 rfl rfl⟩,
   ⟨rfl, rfl, rfl, (C3_validation_order _).2.2.1 rfl rfl rfl⟩,
   ⟨rfl, (C3_validation_order []).2.2.2 "a@b.c" rfl⟩⟩

/-- Claim C4: on the JSON parse path, an empty body parses to the empty
mapping and validation proceeds (here failing on `name`); a malformed JSON
body yields 400 "Invalid JSON in request body"; a well-formed JSON body whose
value is not an object yields 400 "Request JSON must be an object"; in both
error cases nothing is persisted (the put list is empty). -/
theorem C4_json_parse_errors (L : LambdaLibs) (env : Env)
    (store : PutCall → Except String Unit) (u n : String) (e : Event) (tn : String)
    (hm : isOptionsReq e = false) (ht : env.tableName = some tn) (htn : tn ≠ "")
    (hb : e.isBase64Encoded = false)
    (hct : strContains (contentTypeOf e) "application/x-www-form-urlencoded" = false) :
    (e.body.getD "" = "" →
      _parse_body L e = .ok ([], "json") ∧
      lambda_handler L env store u n e =
        (_response env 400 [("message", .vStr "Missing required field: name")], [])) ∧
    (∀ raw, e.body.getD "" = raw → raw ≠ "" → L.jsonLoads raw = none →
      lambda_handler L env store u n e =
        (_response env 400 [("message", .vStr "Invalid JSON in request body")], [])) ∧
    (∀ raw v, e.body.getD "" = raw → raw ≠ "" → L.jsonLoads raw = some v →
      (∀ fs, v ≠ .vObj fs) →
      lambda_handler L env store u n e =
        (_response env 400 [("message", .vStr "Request JSON must be an object")], [])) := by
  have ht' : optStrTruthy env.tableName = true := by simp [ht, optStrTruthy, htn]
  have hred := parse_body_json L e hb hct
  refine ⟨?_, ?_, ?_⟩
  · intro hraw
    have hp : _parse_body L e = .ok ([], "json") := by rw [hred, if_pos hraw]
    exact ⟨hp, handler_invalid L env store u n e [] "json" _ hm ht' hp rfl⟩
  · intro raw hraw hne hj
    have hp : _parse_body L e = .error "Invalid JSON in request body" := by
      rw [hred, hraw, if_neg hne, hj]
    exact handler_parse_error L env store u n e _ hm ht' hp
  · intro raw v hraw hne hj hv
    have hp : _parse_body L e = .error "Request JSON must be an object" := by
      rw [hred, hraw, if_neg hne, hj]
      cases v with
      | vObj fs => exact absurd rfl (hv fs)
      | vNull => rfl
      | vBool b => rfl
      | vNum m => rfl
      | vStr s => rfl
      | vArr xs => rfl
    exact handler_parse_error L env store u n e _ hm ht' hp

/-- Witness for C4 at an absent body, at the spec's malformed body
`\x7bnot json` and at the JSON array body `[1, 2]`. -/
theorem C4_json_parse_errors_witness :
    (isOptionsReq eEmptyBody = false ∧ envT.tableName = some "Submissions" ∧
      "Submissions" ≠ "" ∧ eEmptyBody.isBase64Encoded = false ∧
      strContains (contentTypeOf eEmptyBody) "application/x-www-form-urlencoded" = false ∧
      eEmptyBody.body.getD "" = "" ∧
      _parse_body L0 eEmptyBody = .ok ([], "json") ∧
      lambda_handler L0 envT storeOk "u-1" "t0" eEmptyBody =
        (_response envT 400 [("message", .vStr "Missing required field: name")], [])) ∧
    (eBadJson.body.getD "" = "\x7bnot json" ∧ "\x7bnot json" ≠ "" ∧
      L0.jsonLoads "\x7bnot json" = none ∧
      lambda_handler L0 envT storeOk "u-1" "t0" eBadJson =
        (_response envT 400 [("message", .vStr "Invalid JSON in request body")], [])) ∧
    (eArrJson.body.getD "" = "[1, 2]" ∧ "[1, 2]" ≠ "" ∧
      Larr.jsonLoads "[1, 2]" = some (.vArr [.vNum 1, .vNum 2]) ∧
      (∀ fs, Val.vArr [.vNum 1, .vNum 2] ≠ .vObj fs) ∧
      lambda_handler Larr envT storeOk "u-1" "t0" eArrJson =
        (_response envT 400 [("message", .vStr "Request JSON must be an object")], [])) :=
  ⟨⟨rfl, rfl, by decide, rfl, rfl, rfl,
    ((C4_json_parse_errors L0 envT storeOk "u-1" "t0" eEmptyBody "Submissions"
      rfl rfl (by decide) rfl rfl).1 rfl).1,
    ((C4_json_parse_errors L0 envT storeOk "u-1" "t0" eEmptyBody "Submissions"
      rfl rfl (by decide) rfl rfl).1 rfl).2⟩,
   ⟨rfl, by decide, rfl,
    (C4_json_parse_errors L0 envT storeOk "u-1" "t0" eBadJson "Submissions"
      rfl rfl (by decide) rfl rfl).2.1 "\x7bnot json" rfl (by decide) rfl⟩,
   ⟨rfl, by decide, rfl, fun fs h => (nomatch h),
    (C4_json_parse_errors Larr envT storeOk "u-1" "t0" eArrJson "Submissions"
      rfl rfl (by decide) rfl rfl).2.2 "[1, 2]" (.vArr [.vNum 1, .vNum 2]) rfl (by decide) rfl
      (fun fs h => (nomatch h))⟩⟩

/-- Claim C5, counterexample: the same form body under the header key
`content-type` parses on the form branch, but under the capitalization
`CONTENT-TYPE` the lookup misses, the content type defaults to
`application/json`, and parsing takes the JSON branch — refuting the claim
that any capitalization of the header key selects the same branch. -/
theorem C5_counterexample :
    _parse_body L0 eFormJo =
      .ok ([("name", .vStr "Jo"), ("email", .vStr "jo@example.com")], "form") ∧
    contentTypeOf eUpperCT = "application/json" ∧
    _parse_body L0 eUpperCT = .error "Invalid JSON in request body" :=
  ⟨rfl, rfl, rfl⟩

/-- Tag of any successful parse on the JSON branch. -/
theorem parse_body_json_tag (L : LambdaLibs) (e : Event)
    (hb : e.isBase64Encoded = false)
    (hct : strContains (contentTypeOf e) "application/x-www-form-urlencoded" = false) :
    ∀ m st, _parse_body L e = .ok (m, st) → st = "json" := by
  intro m st hok
  rw [parse_body_json L e hb hct] at hok
  split at hok
  · cases hok; rfl
  · split at hok
    · cases hok
    · cases hok; rfl
    · cases hok

/-- Claim C5 as amended: the `Content-Type` header is looked up under exactly
the two spellings `content-type` then `Content-Type` (first truthy value
wins; an empty value falls through); when neither is present the content type
defaults to `application/json` and the body is parsed as JSON. -/
theorem C5_content_type_exact_keys (e : Event) :
    (∀ s, headerGet e "content-type" = some s → s ≠ "" → contentTypeOf e = s) ∧
    ((headerGet e "content-type" = none ∨ headerGet e "content-type" = some "") →
      ∀ s, headerGet e "Content-Type" = some s → s ≠ "" → contentTypeOf e = s) ∧
    ((headerGet e "content-type" = none ∨ headerGet e "content-type" = some "") →
      (headerGet e "Content-Type" = none ∨ headerGet e "Content-Type" = some "") →
      contentTypeOf e = "application/json") ∧
    (∀ L, e.isBase64Encoded = false →
      headerGet e "content-type" = none → headerGet e "Content-Type" = none →
      ∀ m st, _parse_body L e = .ok (m, st) → st = "json") := by
  refine ⟨?_, ?_, ?_, ?_⟩
  · intro s hs hne
    unfold contentTypeOf pyOrStrOpt
    rw [hs]
    simp [hne]
  · rintro (h | h) s hs hne <;>
      · unfold contentTypeOf pyOrStrOpt
        rw [h, hs]
        simp [hne]
  · rintro (h1 | h1) (h2 | h2) <;>
      · unfold contentTypeOf pyOrStrOpt
        rw [h1, h2]
        try simp
  · intro L hb h1 h2 m st hok
    have hct : contentTypeOf e = "application/json" := by
      unfold contentTypeOf pyOrStrOpt
      rw [h1, h2]
    exact parse_body_json_tag L e hb (by rw [hct]; rfl) m st hok

/-- Witness for the amended C5 at a lower-case header and at absent headers. -/
theorem C5_content_type_exact_keys_witness :
    (headerGet eFormJo "content-type" = some "application/x-www-form-urlencoded" ∧
      "application/x-www-form-urlencoded" ≠ "" ∧
      contentTypeOf eFormJo = "application/x-www-form-urlencoded") ∧
    (headerGet eEmptyBody "content-type" = none ∧
      headerGet eEmptyBody "Content-Type" = none ∧
      contentTypeOf eEmptyBody = "application/json") ∧
    (eEmptyBody.isBase64Encoded = false ∧
      _parse_body L0 eEmptyBody = .ok ([], "json") ∧ "json" = "json") :=
  ⟨⟨rfl, by decide,
    (C5_content_type_exact_keys eFormJo).1 "application/x-www-form-urlencoded" rfl (by decide)⟩,
   ⟨rfl, rfl, (C5_content_type_exact_keys eEmptyBody).2.2.1 (Or.inl rfl) (Or.inl rfl)⟩,
   ⟨rfl, rfl,
    (C5_content_type_exact_keys eEmptyBody).2.2.2 L0 rfl rfl rfl [] "json" rfl⟩⟩

/-- Claim C6: any request whose method (from `httpMethod`, falling back to
the nested request-context method) is `OPTIONS` gets status 204 with the
empty JSON body and the full CORS header set, independently of its body, of
`TABLE_NAME` and of the store, and zero store calls are made. -/
theorem C6_options_preflight (L : LambdaLibs) (env : Env)
    (store : PutCall → Except String Unit) (u n : String) (e : Event)
    (hm : isOptionsReq e = true) :
    lambda_handler L env store u n e =
      ({ statusCode := 204,
         headers := [("Access-Control-Allow-Origin", env.allowedOrigins.getD "*"),
                     ("Access-Control-Allow-Methods", "OPTIONS,POST"),
                     ("Access-Control-Allow-Headers", "Content-Type,Authorization"),
                     ("Access-Control-Max-Age", "86400")],
         body := "\x7b\x7d" }, []) := by
  have h : lambda_handler L env store u n e = (_response env 204 [], []) := by
    simp [lambda_handler, hm]
  rw [h]
  rfl

/-- Witness for C6 at an OPTIONS request with a body and no `TABLE_NAME`. -/
theorem C6_options_preflight_witness :
    isOptionsReq eOptions = true ∧
    lambda_handler L0 { allowedOrigins := none, tableName := none } storeOk "u-1" "t0"
        eOptions =
      ({ statusCode := 204,
         headers := [("Access-Control-Allow-Origin", "*"),
                     ("Access-Control-Allow-Methods", "OPTIONS,POST"),
                     ("Access-Control-Allow-Headers", "Content-Type,Authorization"),
                     ("Access-Control-Max-Age", "86400")],
         body := "\x7b\x7d" }, []) :=
  ⟨rfl, C6_options_preflight L0 { allowedOrigins := none, tableName := none }
    storeOk "u-1" "t0" eOptions rfl⟩

/-- Claim C7: a non-OPTIONS request with `TABLE_NAME` unset or empty gets 500
with "Server misconfiguration: TABLE_NAME is not set", with a response
independent of body and libraries (no parsing or validation contributes) and
zero store calls. -/
theorem C7_missing_table_500 (L : LambdaLibs) (env : Env)
    (store : PutCall → Except String Unit) (u n : String) (e : Event)
    (hm : isOptionsReq e = false) (ht : optStrTruthy env.tableName = false) :
    lambda_handler L env store u n e =
      (_response env 500
        [("message", .vStr "Server misconfiguration: TABLE_NAME is not set")], []) ∧
    (lambda_handler L env store u n e).2 = [] := by
  have h : lambda_handler L env store u n e =
      (_response env 500
        [("message", .vStr "Server misconfiguration: TABLE_NAME is not set")], []) := by
    simp [lambda_handler, hm, ht]
  exact ⟨h, by rw [h]⟩

/-- Witness for C7 with `TABLE_NAME` unset and with it set to the empty
string. -/
theorem C7_missing_table_500_witness :
    isOptionsReq eFormJo = false ∧
    optStrTruthy (Env.mk none none).tableName = false ∧
    optStrTruthy (Env.mk none (some "")).tableName = false ∧
    (lambda_handler L0 (Env.mk none none) storeOk "u-1" "t0" eFormJo =
      (_response (Env.mk none none) 500
        [("message", .vStr "Server misconfiguration: TABLE_NAME is not set")], []) ∧
     (lambda_handler L0 (Env.mk none none) storeOk "u-1" "t0" eFormJo).2 = []) ∧
    (lambda_handler L0 (Env.mk none (some "")) storeOk "u-1" "t0" eFormJo =
      (_response (Env.mk none (some "")) 500
        [("message", .vStr "Server misconfiguration: TABLE_NAME is not set")], []) ∧
     (lambda_handler L0 (Env.mk none (some "")) storeOk "u-1" "t0" eFormJo).2 = []) :=
  ⟨rfl, rfl, rfl,
   C7_missing_table_500 L0 (Env.mk none none) storeOk "u-1" "t0" eFormJo rfl rfl,
   C7_missing_table_500 L0 (Env.mk none (some "")) storeOk "u-1" "t0" eFormJo rfl rfl⟩

/-- Claim C8: the form body `name=Jo&email=jo%40example.com` and the JSON
body `\x7b"name": "Jo", "email": "jo@example.com"\x7d` parse to the same
field mapping, differing only in the encoding tag (`"form"` vs `"json"`);
and a form key given twice keeps only its first value. -/
theorem C8_form_json_roundtrip (L : LambdaLibs)
    (hj : L.jsonLoads jsonBodyJo =
      some (.vObj [("name", .vStr "Jo"), ("email", .vStr "jo@example.com")])) :
    _parse_body L eFormJo =
      .ok ([("name", .vStr "Jo"), ("email", .vStr "jo@example.com")], "form") ∧
    _parse_body L eJsonJo =
      .ok ([("name", .vStr "Jo"), ("email", .vStr "jo@example.com")], "json") ∧
    (∃ m, _parse_body L eFormJo = .ok (m, "form") ∧
      _parse_body L eJsonJo = .ok (m, "json")) ∧
    formPayload "a=1&a=2" = [("a", .vStr "1")] := by
  have h1 : _parse_body L eFormJo =
      .ok ([("name", .vStr "Jo"), ("email", .vStr "jo@example.com")], "form") := rfl
  have h2 : _parse_body L eJsonJo =
      .ok ([("name", .vStr "Jo"), ("email", .vStr "jo@example.com")], "json") := by
    rw [parse_body_json L eJsonJo rfl rfl]
    rw [show eJsonJo.body.getD "" = jsonBodyJo from rfl]
    rw [if_neg (by decide), hj]
  exact ⟨h1, h2, ⟨_, h1, h2⟩, rfl⟩

/-- Witness for C8 with the concrete `json.loads` behaviour `Ljo`. -/
theorem C8_form_json_roundtrip_witness :
    Ljo.jsonLoads jsonBodyJo =
      some (.vObj [("name", .vStr "Jo"), ("email", .vStr "jo@example.com")]) ∧
    (_parse_body Ljo eFormJo =
      .ok ([("name", .vStr "Jo"), ("email", .vStr "jo@example.com")], "form") ∧
    _parse_body Ljo eJsonJo =
      .ok ([("name", .vStr "Jo"), ("email", .vStr "jo@example.com")], "json") ∧
    (∃ m, _parse_body Ljo eFormJo = .ok (m, "form") ∧
      _parse_body Ljo eJsonJo = .ok (m, "json")) ∧
    formPayload "a=1&a=2" = [("a", .vStr "1")]) :=
  ⟨rfl, C8_form_json_roundtrip Ljo rfl⟩

/-- Claim C9: a valid submission whose `message`/`phone` are absent or null
persists a record with no `message`/`phone` keys, while `userId`, `name`,
`email`, `sourceType`, `createdAt` and `updatedAt` are always present. -/
theorem C9_optional_fields_omitted (L : LambdaLibs) (env : Env)
    (store : PutCall → Except String Unit) (u n : String) (e : Event)
    (p : List (String × Val)) (st tn : String)
    (hm : isOptionsReq e = false) (ht : env.tableName = some tn) (htn : tn ≠ "")
    (hp : _parse_body L e = .ok (p, st)) (hv : _validate_payload p = (true, ""))
    (hs : ∀ c, store c = .ok ())
    (hmsg : pget p "message" = none ∨ pget p "message" = some .vNull)
    (hph : pget p "phone" = none ∨ pget p "phone" = some .vNull) :
    ∃ c, (lambda_handler L env store u n e).2 = [c] ∧
      alookup c.item "message" = none ∧
      alookup c.item "phone" = none ∧
      (alookup c.item "userId").isSome = true ∧
      (alookup c.item "name").isSome = true ∧
      (alookup c.item "email").isSome = true ∧
      (alookup c.item "sourceType").isSome = true ∧
      (alookup c.item "createdAt").isSome = true ∧
      (alookup c.item "updatedAt").isSome = true := by
  have h := handler_success L env store u n e p st tn hm ht htn hp hv (hs _)
  rw [h]
  refine ⟨_put_item tn (buildItem p st u n), rfl,
    buildItem_message_none p st u n hmsg, buildItem_phone_none p st u n hph,
    ?_, ?_, ?_, ?_, ?_, ?_⟩
  · rw [show (_put_item tn (buildItem p st u n)).item = buildItem p st u n from rfl,
      buildItem_userId]; rfl
  · rw [show (_put_item tn (buildItem p st u n)).item = buildItem p st u n from rfl,
      buildItem_name]; rfl
  · rw [show (_put_item tn (buildItem p st u n)).item = buildItem p st u n from rfl,
      buildItem_email]; rfl
  · rw [show (_put_item tn (buildItem p st u n)).item = buildItem p st u n from rfl,
      buildItem_sourceType]; rfl
  · rw [show (_put_item tn (buildItem p st u n)).item = buildItem p st u n from rfl,
      buildItem_createdAt]; rfl
  · rw [show (_put_item tn (buildItem p st u n)).item = buildItem p st u n from rfl,
      buildItem_updatedAt]; rfl

/-- Witness for C9 at the concrete form submission `eFormJo`, which carries
neither `message` nor `phone`. -/
theorem C9_optional_fields_omitted_witness :
    (isOptionsReq eFormJo = false ∧ envT.tableName = some "Submissions" ∧
      "Submissions" ≠ "" ∧ _parse_body L0 eFormJo = .ok (pJo, "form") ∧
      _validate_payload pJo = (true, "") ∧ (∀ c, storeOk c = .ok ()) ∧
      (pget pJo "message" = none ∨ pget pJo "message" = some .vNull) ∧
      (pget pJo "phone" = none ∨ pget pJo "phone" = some .vNull)) ∧
    (∃ c, (lambda_handler L0 envT storeOk "u-1" "t0" eFormJo).2 = [c] ∧
      alookup c.item "message" = none ∧
      alookup c.item "phone" = none ∧
      (alookup c.item "userId").isSome = true ∧
      (alookup c.item "name").isSome = true ∧
      (alookup c.item "email").isSome = true ∧
      (alookup c.item "sourceType").isSome = true ∧
      (alookup c.item "createdAt").isSome = true ∧
      (alookup c.item "updatedAt").isSome = true) :=
  ⟨⟨rfl, rfl, by decide, rfl, rfl, fun _ => rfl, Or.inl rfl, Or.inl rfl⟩,
   C9_optional_fields_omitted L0 envT storeOk "u-1" "t0" eFormJo pJo "form" "Submissions"
     rfl rfl (by decide) rfl rfl (fun _ => rfl) (Or.inl rfl) (Or.inl rfl)⟩

/-- `formPayload` of a body with no parseable pair is the empty mapping. -/
theorem formPayload_nil (raw : String) (h : parse_qsl raw = []) :
    formPayload raw = [] := by
  unfold formPayload parse_qs
  rw [h]
  rfl

/-- Claim C10 (implicit): whenever the content type contains the substring
`application/x-www-form-urlencoded`, parsing the body string is total — it
returns a mapping tagged `"form"` and never an error, so the JSON parse-stage
400s are unreachable on the form branch; a body with no parseable pair falls
through to a validation failure instead. -/
theorem C10_form_parse_total (L : LambdaLibs) (env : Env)
    (store : PutCall → Except String Unit) (u n : String) (e : Event) (tn : String)
    (hct : strContains (contentTypeOf e) "application/x-www-form-urlencoded" = true)
    (hb : e.isBase64Encoded = false) :
    _parse_body L e = .ok (formPayload (e.body.getD ""), "form") ∧
    (∀ msg, _parse_body L e ≠ .error msg) ∧
    (isOptionsReq e = false → env.tableName = some tn → tn ≠ "" →
      parse_qsl (e.body.getD "") = [] →
      lambda_handler L env store u n e =
        (_response env 400 [("message", .vStr "Missing required field: name")], [])) := by
  have h1 := parse_body_form L e hb hct
  refine ⟨h1, ?_, ?_⟩
  · intro msg hbad
    rw [h1] at hbad
    cases hbad
  · intro hm ht htn hq
    have hp : _parse_body L e = .ok ([], "form") := by
      rw [h1, formPayload_nil _ hq]
    exact handler_invalid L env store u n e [] "form" _ hm
      (by simp [ht, optStrTruthy, htn]) hp rfl

/-- Witness for C10 at the form-encoded body `????`, which has no
`key=value` pair. -/
theorem C10_form_parse_total_witness :
    (strContains (contentTypeOf eFormGarbage) "application/x-www-form-urlencoded" = true ∧
      eFormGarbage.isBase64Encoded = false ∧ isOptionsReq eFormGarbage = false ∧
      envT.tableName = some "Submissions" ∧ "Submissions" ≠ "" ∧
      parse_qsl (eFormGarbage.body.getD "") = []) ∧
    (_parse_body L0 eFormGarbage = .ok (formPayload (eFormGarbage.body.getD ""), "form") ∧
     (∀ msg, _parse_body L0 eFormGarbage ≠ .error msg) ∧
     lambda_handler L0 envT storeOk "u-1" "t0" eFormGarbage =
       (_response envT 400 [("message", .vStr "Missing required field: name")], [])) :=
  ⟨⟨rfl, rfl, rfl, rfl, by decide, rfl⟩,
   (C10_form_parse_total L0 envT storeOk "u-1" "t0" eFormGarbage "Submissions" rfl rfl).1,
   (C10_form_parse_total L0 envT storeOk "u-1" "t0" eFormGarbage "Submissions" rfl rfl).2.1,
   (C10_form_parse_total L0 envT storeOk "u-1" "t0" eFormGarbage "Submissions" rfl rfl).2.2
     rfl rfl (by decide) rfl⟩
